import Mathlib

/-!
Verification of the code-execution sandboxing component of the ai-chat-app
repository (`src/lib/tools/analyze.ts`, `analyzeTool.execute`).

The executor is a synchronous orchestration around Node's
`child_process.spawnSync`: it validates the input, spawns `python3 -c <code>`
with a wall-clock timeout and an output cap, and classifies every possible
result of the spawn into a single structured outcome object.

The embedding below is shallow: `spawnSync` and the clock are external
effects, so one invocation's environment is a value (`Env`) recording what
the spawn call did (returned a result value, or threw a JavaScript
exception) and the elapsed wall-clock milliseconds.  The orchestration
logic of `execute` is translated line by line from the TypeScript source.
-/

namespace AiChatApp

/-- A JavaScript `Error` object, as attached to `result.error` by
`spawnSync` when the process could not be created or communicated with.
`code` is the Node error code string (`"ENOENT"`, `"ETIMEDOUT"`, ...). -/
structure SpawnError where
  code : Option String
  message : String
deriving Repr, DecidableEq

/-- The value returned by `child_process.spawnSync` (with `encoding:
"utf-8"`): possibly an `error`, the exit `status` (`null` when the child
was killed by a signal or never ran), the terminating `signal`, and the
captured `stdout` / `stderr` streams (`null` when the child never ran). -/
structure SpawnSyncResult where
  error : Option SpawnError
  status : Option Int
  signal : Option String
  stdout : Option String
  stderr : Option String
deriving Repr, DecidableEq

/-- A JavaScript exception escaping from inside the `try` block of
`execute` (for example `spawnSync` itself throwing on invalid options). -/
structure JsError where
  message : String
deriving Repr, DecidableEq

/-- The external world observed by one `execute` invocation: what the
single `spawnSync` call does — either return a `SpawnSyncResult` value or
throw — and the elapsed wall-clock time `Date.now() - startTime` in
milliseconds measured when the spawn call finished. -/
structure Env where
  spawn : Except JsError SpawnSyncResult
  elapsedMs : Nat
deriving Repr

/-- The structured outcome object returned by `analyzeTool.execute`.
Optional fields model JavaScript object keys that some branches omit:
`none` means the key is absent from the returned object. -/
structure Outcome where
  success : Bool
  error : Option String
  stdout : String
  stderr : String
  exit_code : Int
  execution_time_ms : Option Nat
  help : Option String
  details : Option String
deriving Repr, DecidableEq

/-- JavaScript `String.prototype.trim`: drop leading and trailing
whitespace (written on the character list so that it is kernel-evaluable
on concrete strings). -/
def jsTrim (s : String) : String :=
  ⟨List.reverse (List.dropWhile Char.isWhitespace
    (List.reverse (List.dropWhile Char.isWhitespace s.data)))⟩

/-- JavaScript `String.prototype.trimEnd`: drop trailing whitespace. -/
def trimEnd (s : String) : String :=
  ⟨List.reverse (List.dropWhile Char.isWhitespace (List.reverse s.data))⟩

/-- `analyze.ts` lines 130-135: `typeof result.status === "number" ?
result.status : result.signal ? -1 : 0`. -/
def exitCodeOf (r : SpawnSyncResult) : Int :=
  match r.status with
  | some n => n
  | none => match r.signal with
    | some _ => -1
    | none => 0

/-- The outcome built by the empty-input guard, `analyze.ts` lines 73-79.
Note that this object has no `execution_time_ms` and no `help` key. -/
def emptyInputOutcome : Outcome :=
  { success := false
    error := some "No code provided"
    stdout := ""
    stderr := ""
    exit_code := -1
    execution_time_ms := none
    help := none
    details := none }

/-- The body of the `try` block of `execute` after `spawnSync` returned a
result value `r` (`analyze.ts` lines 94-157): classify `r.error`
(`ENOENT` / `ETIMEDOUT` / other), else classify the exit code. -/
def classifySpawn (timeout_seconds : Nat) (r : SpawnSyncResult)
    (executionTime : Nat) : Outcome :=
  match r.error with
  | some err =>
    if err.code = some "ENOENT" then
      { success := false
        error := some "Python 3 is not installed or not found in PATH"
        stdout := r.stdout.getD ""
        stderr := r.stderr.getD "python3 not found"
        exit_code := -1
        execution_time_ms := some executionTime
        help := some "Install Python from https://www.python.org/downloads/"
        details := none }
    else if err.code = some "ETIMEDOUT" then
      { success := false
        error := some ("Execution timed out after " ++ toString timeout_seconds
          ++ " seconds")
        stdout := r.stdout.getD ""
        stderr := r.stderr.getD ""
        exit_code := -1
        execution_time_ms := some executionTime
        help := none
        details := none }
    else
      { success := false
        error := some "Failed to start or run Python process"
        stdout := r.stdout.getD ""
        stderr := r.stderr.getD err.message
        exit_code := -1
        execution_time_ms := some executionTime
        help := none
        details := none }
  | none =>
    if exitCodeOf r = 0 then
      { success := true
        error := none
        stdout := trimEnd (r.stdout.getD "")
        stderr := trimEnd (r.stderr.getD "")
        exit_code := 0
        execution_time_ms := some executionTime
        help := none
        details := none }
    else
      { success := false
        error := some "Python execution failed"
        stdout := trimEnd (r.stdout.getD "")
        stderr := trimEnd (r.stderr.getD "")
        exit_code := exitCodeOf r
        execution_time_ms := some executionTime
        help := none
        details := none }

/-- The outcome built by the `catch` clause, `analyze.ts` lines 158-170:
any exception thrown by the orchestration logic inside the `try` block is
converted into this object. -/
def unexpectedOutcome (e : JsError) (executionTime : Nat) : Outcome :=
  { success := false
    error := some "Unexpected error during code execution"
    details := some e.message
    stdout := ""
    stderr := ""
    exit_code := -1
    execution_time_ms := some executionTime
    help := none }

/-- `analyzeTool.execute` (`analyze.ts` lines 71-171), instrumented with
the number of `spawnSync` calls made (second component): the empty-input
guard, then the single spawn whose behavior in this invocation is
`env.spawn`, then classification, with the `catch` clause converting a
thrown exception into `unexpectedOutcome`. -/
def executeTr (code : String) (timeout_seconds : Nat) (env : Env) :
    Outcome × Nat :=
  if (jsTrim code).length = 0 then
    (emptyInputOutcome, 0)
  else
    match env.spawn with
    | Except.ok r => (classifySpawn timeout_seconds r env.elapsedMs, 1)
    | Except.error e => (unexpectedOutcome e env.elapsedMs, 1)

/-- The outcome of `analyzeTool.execute`. -/
def execute (code : String) (timeout_seconds : Nat) (env : Env) : Outcome :=
  (executeTr code timeout_seconds env).1

/-- How many child processes one `execute` call spawns. -/
def spawnCount (code : String) (timeout_seconds : Nat) (env : Env) : Nat :=
  (executeTr code timeout_seconds env).2

/-- `analyze.ts` line 89: the `maxBuffer` option passed to `spawnSync`,
1 MiB. -/
def maxBuffer : Nat := 1024 * 1024

/-- What the child process itself did during a run, before the supervisor
applies the output cap: the raw characters written to each stream and how
the child terminated. -/
structure RawChild where
  rawStdout : List Char
  rawStderr : List Char
  status : Option Int
  signal : Option String

/-- Modelled from the spec: the output-cap behavior of the process
supervisor (Node's `spawnSync` honoring the `maxBuffer` option) is
library code, not part of this repository; only the option value 1 MiB is
(`analyze.ts` line 89).  Spec section 4 step 4: "Enforce an output cap
(reference: 1 MiB combined) on captured stdout/stderr; exceeding it
truncates rather than crashing the executor or the parent process", and
spec section 6 ability (3): "the ability to capture stdout/stderr up to a
byte cap".  The combined cap is modelled stdout-first: stdout is captured
up to the cap and stderr up to the remaining budget; when the raw output
exceeded the cap the supervisor additionally reports an error on the
returned result, the child having been terminated by signal. -/
def capSpawn (c : RawChild) : SpawnSyncResult :=
  if c.rawStdout.length + c.rawStderr.length > maxBuffer then
    { error := some { code := some "ENOBUFS"
                      message := "spawnSync python3 ENOBUFS" }
      status := none
      signal := some "SIGTERM"
      stdout := some ⟨c.rawStdout.take maxBuffer⟩
      stderr := some ⟨c.rawStderr.take (maxBuffer
        - (c.rawStdout.take maxBuffer).length)⟩ }
  else
    { error := none
      status := c.status
      signal := c.signal
      stdout := some ⟨c.rawStdout⟩
      stderr := some ⟨c.rawStderr⟩ }

/-! Concrete environments used to instantiate the theorems below. -/

/-- A run in which the child printed `hello` and exited with status 0. -/
def rExit0 : SpawnSyncResult :=
  { error := none
    status := some 0
    signal := none
    stdout := some "hello\n"
    stderr := some "" }

/-- Environment for the exit-0 run. -/
def envExit0 : Env := { spawn := Except.ok rExit0, elapsedMs := 12 }

/-- A run in which the child wrote a traceback and exited with status 2. -/
def rExit2 : SpawnSyncResult :=
  { error := none
    status := some 2
    signal := none
    stdout := some ""
    stderr := some "Traceback: boom\n" }

/-- Environment for the exit-2 run. -/
def envExit2 : Env := { spawn := Except.ok rExit2, elapsedMs := 7 }

/-- The error object `spawnSync` attaches when `python3` is not on the
search path. -/
def errEnoent : SpawnError :=
  { code := some "ENOENT", message := "spawnSync python3 ENOENT" }

/-- A run in which the interpreter could not be found. -/
def rEnoent : SpawnSyncResult :=
  { error := some errEnoent
    status := none
    signal := none
    stdout := none
    stderr := none }

/-- Environment for the interpreter-not-found run. -/
def envEnoent : Env := { spawn := Except.ok rEnoent, elapsedMs := 3 }

/-- The error object `spawnSync` attaches when the timeout expired. -/
def errTimedOut : SpawnError :=
  { code := some "ETIMEDOUT", message := "spawnSync python3 ETIMEDOUT" }

/-- A run in which the wall-clock timeout expired before completion. -/
def rTimedOut : SpawnSyncResult :=
  { error := some errTimedOut
    status := none
    signal := some "SIGTERM"
    stdout := some "partial"
    stderr := some "" }

/-- Environment for the timed-out run. -/
def envTimedOut : Env := { spawn := Except.ok rTimedOut, elapsedMs := 10050 }

/-- An invocation in which the orchestration logic itself threw. -/
def envThrow : Env :=
  { spawn := Except.error { message := "boom" }, elapsedMs := 4 }

/-- A child that wrote one character more than the cap to stdout. -/
def cBig : RawChild :=
  { rawStdout := List.replicate (maxBuffer + 1) 'a'
    rawStderr := []
    status := none
    signal := some "SIGTERM" }

/-! Helper lemmas shared by the claim theorems. -/

theorem string_length_zero_iff (s : String) : s.length = 0 ↔ s = "" := by
  cases s with
  | mk data =>
    simp only [String.length]
    constructor
    · intro h
      have hd : data = [] := List.length_eq_zero.mp h
      simp [hd]
    · intro h
      have hd : data = ([] : List Char) := congrArg String.data h
      simp [hd]

theorem classifySpawn_time (t : Nat) (r : SpawnSyncResult) (ms : Nat) :
    (classifySpawn t r ms).execution_time_ms = some ms := by
  unfold classifySpawn
  cases r.error with
  | some err =>
    by_cases h1 : err.code = some "ENOENT" <;>
      by_cases h2 : err.code = some "ETIMEDOUT" <;> simp [h1, h2]
  | none =>
    by_cases h0 : exitCodeOf r = 0 <;> simp [h0]

theorem classifySpawn_classified (t : Nat) (r : SpawnSyncResult) (ms : Nat) :
    ((classifySpawn t r ms).success = true ∧
      (classifySpawn t r ms).error = none) ∨
    ((classifySpawn t r ms).success = false ∧
      ∃ m, (classifySpawn t r ms).error = some m) := by
  unfold classifySpawn
  cases r.error with
  | some err =>
    by_cases h1 : err.code = some "ENOENT" <;>
      by_cases h2 : err.code = some "ETIMEDOUT" <;> simp [h1, h2]
  | none =>
    by_cases h0 : exitCodeOf r = 0 <;> simp [h0]

/-- C1: for every input (code string and timeout) and every behavior of
the external world — the spawn returning any result value, or any
exception thrown inside the `try` block — `execute` returns a structured
outcome: either a success carrying no error, or a failure carrying an
error message.  No path propagates an exception to the caller, the
`catch` clause converting internal errors into a returned result object. -/
theorem execute_always_classified (code : String) (t : Nat) (env : Env) :
    ((execute code t env).success = true ∧
      (execute code t env).error = none) ∨
    ((execute code t env).success = false ∧
      ∃ m, (execute code t env).error = some m) := by
  unfold execute executeTr
  by_cases h : (jsTrim code).length = 0
  · simp [h, emptyInputOutcome]
  · cases hsp : env.spawn with
    | ok r =>
      simpa [h, hsp] using classifySpawn_classified t r env.elapsedMs
    | error e =>
      simp [h, hsp, unexpectedOutcome]

/-- C2: for every code string that is empty or all-whitespace, `execute`
returns the `EmptyInput` rejection (success = false, error "No code
provided") and spawns no child process, whatever the environment. -/
theorem empty_input_rejected (code : String) (t : Nat) (env : Env)
    (h : jsTrim code = "") :
    execute code t env = emptyInputOutcome ∧
    (execute code t env).success = false ∧
    spawnCount code t env = 0 := by
  have hl : (jsTrim code).length = 0 := by rw [h]; rfl
  unfold execute spawnCount executeTr
  simp [hl, emptyInputOutcome]

/-- Witness for C2 at the whitespace-only input `" \n\t "`. -/
theorem empty_input_rejected_wit :
    execute " \n\t " 10 envExit0 = emptyInputOutcome ∧
    (execute " \n\t " 10 envExit0).success = false ∧
    spawnCount " \n\t " 10 envExit0 = 0 :=
  empty_input_rejected " \n\t " 10 envExit0 (by decide)

/-- C3 counterexample: at the empty code string, the returned outcome has
no `execution_time_ms` field (the object literal on `analyze.ts` lines
73-79 omits that key), contradicting the claim that the elapsed-time
field is included in every outcome, including the `EmptyInput`
rejection. -/
theorem execution_time_missing_on_empty :
    (execute "" 10 envExit0).execution_time_ms = none := rfl

/-- C3 (amended): the returned outcome carries `execution_time_ms` — the
elapsed wall-clock time — on success and on every failure kind, except
the `EmptyInput` rejection, whose outcome omits the field. -/
theorem execution_time_iff_not_empty (code : String) (t : Nat) (env : Env) :
    (execute code t env).execution_time_ms =
      (if jsTrim code = "" then none else some env.elapsedMs) := by
  unfold execute executeTr
  by_cases h : jsTrim code = ""
  · have hl : (jsTrim code).length = 0 := by rw [h]; rfl
    simp [h, hl, emptyInputOutcome]
  · have hl : ¬ (jsTrim code).length = 0 := by
      intro h0
      exact h ((string_length_zero_iff (jsTrim code)).mp h0)
    cases hsp : env.spawn with
    | ok r =>
      simpa [h, hl, hsp] using classifySpawn_time t r env.elapsedMs
    | error e =>
      simp [h, hl, hsp, unexpectedOutcome]

/-- C4: whenever the child process exits with status 0 (spawn returned a
result with no error and status 0), the outcome is a success: success =
true, exit_code = 0, and stdout / stderr are the captured streams trimmed
of trailing whitespace. -/
theorem exit_zero_success (code : String) (t : Nat) (env : Env)
    (r : SpawnSyncResult)
    (hne : jsTrim code ≠ "")
    (hsp : env.spawn = Except.ok r)
    (herr : r.error = none)
    (hst : r.status = some 0) :
    (execute code t env).success = true ∧
    (execute code t env).exit_code = 0 ∧
    (execute code t env).stdout = trimEnd (r.stdout.getD "") ∧
    (execute code t env).stderr = trimEnd (r.stderr.getD "") := by
  have hl : ¬ (jsTrim code).length = 0 := by
    intro h0
    exact hne ((string_length_zero_iff (jsTrim code)).mp h0)
  have h0 : exitCodeOf r = 0 := by simp [exitCodeOf, hst]
  unfold execute executeTr
  simp only [hl, if_false, hsp]
  unfold classifySpawn
  simp [herr, h0]

/-- Witness for C4: a run that printed `hello` and exited 0. -/
theorem exit_zero_success_wit :
    (execute "print(1)" 10 envExit0).success = true ∧
    (execute "print(1)" 10 envExit0).exit_code = 0 ∧
    (execute "print(1)" 10 envExit0).stdout = trimEnd (rExit0.stdout.getD "") ∧
    (execute "print(1)" 10 envExit0).stderr = trimEnd (rExit0.stderr.getD "") :=
  exit_zero_success "print(1)" 10 envExit0 rExit0 (by decide) rfl rfl rfl

/-- C5: whenever the child exited with a non-zero status, or was killed
by a signal without a normal exit status, the outcome is the non-zero
exit failure: success = false, error "Python execution failed",
exit_code equal to the child's status — or the sentinel -1 when the
child was terminated by a signal — and the child's stdout / stderr
surfaced trimmed of trailing whitespace. -/
theorem nonzero_or_signal_failure (code : String) (t : Nat) (env : Env)
    (r : SpawnSyncResult)
    (hne : jsTrim code ≠ "")
    (hsp : env.spawn = Except.ok r)
    (herr : r.error = none)
    (h : (∃ n, r.status = some n ∧ n ≠ 0) ∨
      (r.status = none ∧ ∃ s, r.signal = some s)) :
    (execute code t env).success = false ∧
    (execute code t env).error = some "Python execution failed" ∧
    (∀ n, r.status = some n → (execute code t env).exit_code = n) ∧
    (r.status = none → (execute code t env).exit_code = -1) ∧
    (execute code t env).stdout = trimEnd (r.stdout.getD "") ∧
    (execute code t env).stderr = trimEnd (r.stderr.getD "") := by
  have hl : ¬ (jsTrim code).length = 0 := by
    intro h0
    exact hne ((string_length_zero_iff (jsTrim code)).mp h0)
  have h0 : ¬ exitCodeOf r = 0 := by
    rcases h with ⟨n, hn, hn0⟩ | ⟨hnone, s, hs⟩
    · simp [exitCodeOf, hn, hn0]
    · simp [exitCodeOf, hnone, hs]
  unfold execute executeTr
  simp only [hl, if_false, hsp]
  unfold classifySpawn
  simp only [herr, h0, if_false]
  refine ⟨by trivial, by trivial, ?_, ?_, by trivial, by trivial⟩
  · intro n hn
    simp [exitCodeOf, hn]
  · intro hnone
    rcases h with ⟨n, hn, _⟩ | ⟨_, s, hs⟩
    · rw [hn] at hnone; cases hnone
    · simp [exitCodeOf, hnone, hs]

/-- Witness for C5: a run that exited with status 2. -/
theorem nonzero_or_signal_failure_wit :
    (execute "raise SystemExit(2)" 10 envExit2).success = false ∧
    (execute "raise SystemExit(2)" 10 envExit2).error =
      some "Python execution failed" ∧
    (∀ n, rExit2.status = some n →
      (execute "raise SystemExit(2)" 10 envExit2).exit_code = n) ∧
    (rExit2.status = none →
      (execute "raise SystemExit(2)" 10 envExit2).exit_code = -1) ∧
    (execute "raise SystemExit(2)" 10 envExit2).stdout =
      trimEnd (rExit2.stdout.getD "") ∧
    (execute "raise SystemExit(2)" 10 envExit2).stderr =
      trimEnd (rExit2.stderr.getD "") :=
  nonzero_or_signal_failure "raise SystemExit(2)" 10 envExit2 rExit2
    (by decide) rfl rfl (Or.inl ⟨2, rfl, by decide⟩)

/-- C6: whenever process creation failed because the interpreter command
was not found (spawn error with code ENOENT), whatever the code content,
the outcome is the interpreter-not-found failure and carries the
remediation hint; and conversely the `help` field is present in an
outcome only on that path. -/
theorem interpreter_not_found_help (code : String) (t : Nat) (env : Env) :
    (∀ r err, jsTrim code ≠ "" → env.spawn = Except.ok r →
      r.error = some err → err.code = some "ENOENT" →
      (execute code t env).success = false ∧
      (execute code t env).error =
        some "Python 3 is not installed or not found in PATH" ∧
      (execute code t env).help =
        some "Install Python from https://www.python.org/downloads/") ∧
    (∀ m, (execute code t env).help = some m →
      ∃ r err, env.spawn = Except.ok r ∧ r.error = some err ∧
        err.code = some "ENOENT" ∧
        m = "Install Python from https://www.python.org/downloads/") := by
  constructor
  · intro r err hne hsp herr hcode
    have hl : ¬ (jsTrim code).length = 0 := by
      intro h0
      exact hne ((string_length_zero_iff (jsTrim code)).mp h0)
    unfold execute executeTr
    simp only [hl, if_false, hsp]
    unfold classifySpawn
    simp [herr, hcode]
  · intro m hm
    by_cases h : (jsTrim code).length = 0
    · unfold execute executeTr at hm
      simp [h, emptyInputOutcome] at hm
    · cases hsp : env.spawn with
      | ok r =>
        refine ⟨r, ?_⟩
        unfold execute executeTr at hm
        simp only [h, if_false, hsp] at hm
        unfold classifySpawn at hm
        cases herr : r.error with
        | some err =>
          rw [herr] at hm
          by_cases h1 : err.code = some "ENOENT"
          · simp only [h1, if_true] at hm
            exact ⟨err, rfl, rfl, h1, by
              simpa using hm.symm⟩
          · by_cases h2 : err.code = some "ETIMEDOUT" <;>
              simp [h1, h2] at hm
        | none =>
          rw [herr] at hm
          by_cases h0 : exitCodeOf r = 0 <;> simp [h0] at hm
      | error e =>
        unfold execute executeTr at hm
        simp [h, hsp, unexpectedOutcome] at hm

/-- Witness for C6: the interpreter-not-found run. -/
theorem interpreter_not_found_help_wit :
    (execute "print(1)" 10 envEnoent).success = false ∧
    (execute "print(1)" 10 envEnoent).error =
      some "Python 3 is not installed or not found in PATH" ∧
    (execute "print(1)" 10 envEnoent).help =
      some "Install Python from https://www.python.org/downloads/" :=
  (interpreter_not_found_help "print(1)" 10 envEnoent).1 rEnoent errEnoent
    (by decide) rfl rfl rfl

/-- C7: whenever the wall-clock timeout expired before the child
completed (spawn error with code ETIMEDOUT), the outcome is a timeout
failure whose error message reports the configured bound,
`timeout_seconds`, that was exceeded. -/
theorem timeout_reports_bound (code : String) (t : Nat) (env : Env)
    (r : SpawnSyncResult) (err : SpawnError)
    (hne : jsTrim code ≠ "")
    (hsp : env.spawn = Except.ok r)
    (herr : r.error = some err)
    (hcode : err.code = some "ETIMEDOUT") :
    (execute code t env).success = false ∧
    (execute code t env).error =
      some ("Execution timed out after " ++ toString t ++ " seconds") ∧
    (execute code t env).exit_code = -1 := by
  have hl : ¬ (jsTrim code).length = 0 := by
    intro h0
    exact hne ((string_length_zero_iff (jsTrim code)).mp h0)
  have hnoent : ¬ err.code = some "ENOENT" := by simp [hcode]
  unfold execute executeTr
  simp only [hl, if_false, hsp]
  unfold classifySpawn
  simp [herr, hnoent, hcode]

/-- Witness for C7: a run whose 10-second budget was exceeded. -/
theorem timeout_reports_bound_wit :
    (execute "import time; time.sleep(60)" 10 envTimedOut).success = false ∧
    (execute "import time; time.sleep(60)" 10 envTimedOut).error =
      some ("Execution timed out after " ++ toString 10 ++ " seconds") ∧
    (execute "import time; time.sleep(60)" 10 envTimedOut).exit_code = -1 :=
  timeout_reports_bound "import time; time.sleep(60)" 10 envTimedOut
    rTimedOut errTimedOut (by decide) rfl rfl rfl

theorem string_length_mk (l : List Char) : (String.mk l).length = l.length :=
  rfl

/-- C8: whenever the child's combined raw stdout/stderr exceeds the 1 MiB
output cap, the captured output is truncated to exactly the cap (stdout
is surfaced as the raw stdout truncated to the cap) and a structured
result is still returned — a process-error failure carrying the truncated
output and the elapsed time — rather than the output being dropped or the
executor crashing. -/
theorem output_cap_truncated (code : String) (t : Nat) (c : RawChild)
    (ms : Nat)
    (hne : jsTrim code ≠ "")
    (hover : c.rawStdout.length + c.rawStderr.length > maxBuffer) :
    (execute code t { spawn := Except.ok (capSpawn c), elapsedMs := ms
      }).success = false ∧
    (execute code t { spawn := Except.ok (capSpawn c), elapsedMs := ms
      }).error = some "Failed to start or run Python process" ∧
    (execute code t { spawn := Except.ok (capSpawn c), elapsedMs := ms
      }).stdout = String.mk (c.rawStdout.take maxBuffer) ∧
    (execute code t { spawn := Except.ok (capSpawn c), elapsedMs := ms
      }).stdout.length +
      (execute code t { spawn := Except.ok (capSpawn c), elapsedMs := ms
        }).stderr.length = maxBuffer ∧
    (execute code t { spawn := Except.ok (capSpawn c), elapsedMs := ms
      }).execution_time_ms = some ms := by
  have hl : ¬ (jsTrim code).length = 0 := by
    intro h0
    exact hne ((string_length_zero_iff (jsTrim code)).mp h0)
  have hcap : capSpawn c =
      { error := some { code := some "ENOBUFS"
                        message := "spawnSync python3 ENOBUFS" }
        status := none
        signal := some "SIGTERM"
        stdout := some ⟨c.rawStdout.take maxBuffer⟩
        stderr := some ⟨c.rawStderr.take (maxBuffer
          - (c.rawStdout.take maxBuffer).length)⟩ } := by
    unfold capSpawn
    simp [hover]
  unfold execute executeTr
  simp only [hl, if_false]
  rw [hcap]
  unfold classifySpawn
  have h1 : (some "ENOBUFS" : Option String) ≠ some "ENOENT" := by decide
  have h2 : (some "ENOBUFS" : Option String) ≠ some "ETIMEDOUT" := by decide
  simp only [h1, h2, if_false, Option.getD]
  refine ⟨by trivial, by trivial, by trivial, ?_, by trivial⟩
  simp only [string_length_mk, List.length_take]
  omega

/-- Witness for C8: a child that wrote one character more than the cap. -/
theorem output_cap_truncated_wit :
    (execute "print('a' * (2**20+1))" 10
      { spawn := Except.ok (capSpawn cBig), elapsedMs := 44 }).success
        = false ∧
    (execute "print('a' * (2**20+1))" 10
      { spawn := Except.ok (capSpawn cBig), elapsedMs := 44 }).error
        = some "Failed to start or run Python process" ∧
    (execute "print('a' * (2**20+1))" 10
      { spawn := Except.ok (capSpawn cBig), elapsedMs := 44 }).stdout
        = String.mk (cBig.rawStdout.take maxBuffer) ∧
    (execute "print('a' * (2**20+1))" 10
      { spawn := Except.ok (capSpawn cBig), elapsedMs := 44 }).stdout.length +
      (execute "print('a' * (2**20+1))" 10
        { spawn := Except.ok (capSpawn cBig), elapsedMs := 44 }).stderr.length
        = maxBuffer ∧
    (execute "print('a' * (2**20+1))" 10
      { spawn := Except.ok (capSpawn cBig), elapsedMs := 44
        }).execution_time_ms = some 44 :=
  output_cap_truncated "print('a' * (2**20+1))" 10 cBig 44 (by decide)
    (by
      have h : cBig.rawStdout = List.replicate (maxBuffer + 1) 'a' := rfl
      have h2 : cBig.rawStderr = [] := rfl
      rw [h, h2, List.length_replicate, List.length_nil]
      omega)

/-- C10: whenever the orchestration logic inside the `try` block itself
throws (the Unexpected failure path), the returned outcome has stdout and
stderr equal to the empty string and exit_code -1, whatever output the
child may have produced, together with the fixed Unexpected error message
and the thrown error's message in `details`. -/
theorem unexpected_blanks_output (code : String) (t : Nat) (env : Env)
    (e : JsError)
    (hne : jsTrim code ≠ "")
    (hsp : env.spawn = Except.error e) :
    (execute code t env).stdout = "" ∧
    (execute code t env).stderr = "" ∧
    (execute code t env).exit_code = -1 ∧
    (execute code t env).success = false ∧
    (execute code t env).error =
      some "Unexpected error during code execution" ∧
    (execute code t env).details = some e.message := by
  have hl : ¬ (jsTrim code).length = 0 := by
    intro h0
    exact hne ((string_length_zero_iff (jsTrim code)).mp h0)
  unfold execute executeTr
  simp [hl, hsp, unexpectedOutcome]

/-- Witness for C10: an invocation whose `try` block threw `boom`. -/
theorem unexpected_blanks_output_wit :
    (execute "print(1)" 10 envThrow).stdout = "" ∧
    (execute "print(1)" 10 envThrow).stderr = "" ∧
    (execute "print(1)" 10 envThrow).exit_code = -1 ∧
    (execute "print(1)" 10 envThrow).success = false ∧
    (execute "print(1)" 10 envThrow).error =
      some "Unexpected error during code execution" ∧
    (execute "print(1)" 10 envThrow).details = some "boom" :=
  unexpected_blanks_output "print(1)" 10 envThrow { message := "boom" }
    (by decide) rfl

end AiChatApp
